import Mathlib

/-!
Shallow embedding of the client-side swipe-card code:
`www/app/static/card.js` (class `Card`), `www/app/static/cardContainer.js`
(deck bookkeeping) and `www/app/static/ajax.js` (like-button widget).

Coordinates and pixel offsets are modelled as rationals (`ℚ`); the JS
`undefined` value of a private field that was never assigned is modelled
as `Option.none`.  Listener registration on the DOM `document` and on the
card element is modelled as boolean flags, one per (event-type, handler)
pair the source ever registers.  Side effects (console logs, `fetch`
calls, lifecycle callbacks) are recorded in an ordered effect list.
-/

namespace Swipe

/-- A point, as destructured from `clientX` / `clientY`. -/
structure Point where
  x : ℚ
  y : ℚ
deriving DecidableEq, Repr

/-- Listeners the source registers on the card element itself
(`card.js` lines 63, 77, 87): `touchstart`, `mousedown`, `dragstart`. -/
structure ElemListeners where
  mousedown : Bool
  touchstart : Bool
  dragstartPrevent : Bool
deriving DecidableEq, Repr

/-- Listeners the source registers on `document`: `mousemove`
(handler `#handleMouseMove`), `mouseup` (`#handleMoveUp`), `touchmove`
(`#handleTouchMove`), `touchend` and `cancel` (both `#handleTouchEnd`). -/
structure DocListeners where
  mousemove : Bool
  mouseup : Bool
  touchmove : Bool
  touchend : Bool
  cancel : Bool
deriving DecidableEq, Repr

/-- The card element's inline `style.transition` value: unset (`''` at
creation), `'transform 0s'` (set on drag start) or `'transform 1s'`
(set by `#dismiss`). -/
inductive TransitionStyle
  | unset
  | zeroS
  | oneS
deriving DecidableEq, Repr

/-- The card element's inline `style.transform` value: `''` (resting) or
`translate(tx px, ty px) rotate(rot deg)`.  `ty` is the stored
`#offsetY`, which is `undefined` (`none`) until the first move. -/
inductive TransformStyle
  | empty
  | trs (tx : ℚ) (ty : Option ℚ) (rot : ℚ)
deriving DecidableEq, Repr

/-- Externally observable side effects, in emission order. -/
inductive Effect
  | logPost                                   -- console.log("About to send POST")
  | fetchReact (carID : String) (swipedRight : Bool)  -- POST /react body
  | callDismiss                               -- this.onDismiss()
  | callLike                                  -- this.onLike()
  | callDislike                               -- this.onDislike()
  | logData                                   -- .then(data => console.log(data))
  | logFetchError                             -- .catch(error => console.error(...))
  | logCount (n : ℤ)                          -- console.log(`cardCount: ...`)
  | logCardAdded (n : ℤ)                      -- console.log(`card... added`)
  | logAllSwiped                              -- console.log("All cards have been swiped!")
  | fetchDepleted                             -- POST /cards-depleted body isEmpty true
deriving DecidableEq, Repr

/-- Per-card immutable construction data: the fields of the constructor
argument of `Card` that the gesture engine reads, plus the two layout
quantities the handlers read (`this.element.clientWidth` and
`window.innerWidth`).  `hasOnDismiss` etc. model
`typeof this.onX === 'function'`. -/
structure CardParams where
  carID : String
  clientWidth : ℚ
  innerWidth : ℚ
  hasOnDismiss : Bool
  hasOnLike : Bool
  hasOnDislike : Bool
deriving DecidableEq, Repr

/-- The mutable state of one `Card` instance together with its DOM
registrations.  `dismissals` counts executions of `#dismiss`;
`pendingRemovals` holds the delays of scheduled `setTimeout` removal
callbacks; `removed` counts executed `this.element.remove()` calls;
`lastCommitDirection` records the `direction` argument of the most
recent `#dismiss` call. -/
structure CardState where
  startPoint : Option Point
  offsetX : Option ℚ
  offsetY : Option ℚ
  transition : TransitionStyle
  transform : TransformStyle
  elem : ElemListeners
  doc : DocListeners
  dismissing : Bool
  inDom : Bool
  pendingRemovals : List ℕ
  removed : ℕ
  dismissals : ℕ
  lastCommitDirection : Option ℤ
  effects : List Effect
deriving DecidableEq, Repr

/-- The effect list appended by one `#dismiss(direction)` call, in source
order: the confirmation log, the `/react` fetch, then the optional
lifecycle callbacks (`card.js` lines 146-168). -/
def dismissEffects (p : CardParams) (direction : ℤ) : List Effect :=
  [Effect.logPost, Effect.fetchReact p.carID (direction == 1)]
    ++ (if p.hasOnDismiss then [Effect.callDismiss] else [])
    ++ (if p.hasOnLike && direction == 1 then [Effect.callLike] else [])
    ++ (if p.hasOnDislike && direction == -1 then [Effect.callDislike] else [])

/-- `#dismiss = (direction) => ...` (`card.js` lines 132-169): clears the
anchor, removes the `mouseup`, `mousemove`, `touchend` and `touchmove`
document listeners (the `cancel` listener is not touched), sets the exit
transition and transform, adds the `dismissing` class, schedules removal
after 1000 ms, sends the `/react` report and invokes the callbacks. -/
def dismiss (p : CardParams) (s : CardState) (direction : ℤ) : CardState :=
  { s with
    startPoint := none
    doc := { s.doc with mouseup := false, mousemove := false,
                        touchend := false, touchmove := false }
    transition := TransitionStyle.oneS
    transform := TransformStyle.trs ((direction : ℚ) * p.innerWidth) s.offsetY
                   (45 * (direction : ℚ))
    dismissing := true
    pendingRemovals := s.pendingRemovals ++ [1000]
    dismissals := s.dismissals + 1
    lastCommitDirection := some direction
    effects := s.effects ++ dismissEffects p direction }

/-- `#handleMove = (x, y) => ...` (`card.js` lines 92-101).  The caller
guarantees `#startPoint` is set; it is passed here as `sp`. -/
def handleMove (p : CardParams) (s : CardState) (sp : Point) (x y : ℚ) : CardState :=
  let ox := x - sp.x
  let oy := y - sp.y
  let rot := ox * (1 / 10)
  let s1 := { s with offsetX := some ox, offsetY := some oy,
                     transform := TransformStyle.trs ox (some oy) rot }
  if |ox| > p.clientWidth * (7 / 10) then
    dismiss p s1 (if ox > 0 then 1 else -1)
  else
    s1

/-- `#handleMouseMove` (`card.js` lines 104-109): returns unless
`#startPoint` is set, then forwards the event coordinates. -/
def handleMouseMove (p : CardParams) (s : CardState) (x y : ℚ) : CardState :=
  match s.startPoint with
  | none => s
  | some sp => handleMove p s sp x y

/-- `#handleMoveUp` (`card.js` lines 111-115): clears the anchor, removes
the document `mousemove` listener and resets the transform to `''`. -/
def handleMoveUp (s : CardState) : CardState :=
  { s with startPoint := none
           doc := { s.doc with mousemove := false }
           transform := TransformStyle.empty }

/-- `#handleTouchMove` (`card.js` lines 118-124): returns unless
`#startPoint` is set and the event has a changed touch. -/
def handleTouchMove (p : CardParams) (s : CardState) (t : Option Point) : CardState :=
  match s.startPoint with
  | none => s
  | some sp =>
    match t with
    | none => s
    | some pt => handleMove p s sp pt.x pt.y

/-- `#handleTouchEnd` (`card.js` lines 126-130): clears the anchor, removes
the document `touchmove` listener and resets the transform to `''`. -/
def handleTouchEnd (s : CardState) : CardState :=
  { s with startPoint := none
           doc := { s.doc with touchmove := false }
           transform := TransformStyle.empty }

/-- The anonymous `mousedown` handler (`card.js` lines 77-82): records the
anchor, binds `mousemove` on the document and suspends the transition. -/
def handleMouseDown (s : CardState) (x y : ℚ) : CardState :=
  { s with startPoint := some { x := x, y := y }
           doc := { s.doc with mousemove := true }
           transition := TransitionStyle.zeroS }

/-- The anonymous `touchstart` handler (`card.js` lines 63-70): returns if
the event has no changed touch, else records the anchor, binds
`touchmove` on the document and suspends the transition. -/
def handleTouchStart (s : CardState) (t : Option Point) : CardState :=
  match t with
  | none => s
  | some pt =>
    { s with startPoint := some pt
             doc := { s.doc with touchmove := true }
             transition := TransitionStyle.zeroS }

/-- The state of a freshly constructed `Card` whose one-time
`#isTouchDevice()` probe returned `isTouch` (`card.js` lines 54-58):
exactly one listener family is bound.  The touch family binds
`touchstart` on the element and `touchend` plus `cancel` on the
document; the mouse family binds `mousedown` and `dragstart` on the
element and `mouseup` on the document. -/
def initCard (isTouch : Bool) : CardState :=
  { startPoint := none
    offsetX := none
    offsetY := none
    transition := TransitionStyle.unset
    transform := TransformStyle.empty
    elem := if isTouch then
              { mousedown := false, touchstart := true, dragstartPrevent := false }
            else
              { mousedown := true, touchstart := false, dragstartPrevent := true }
    doc := if isTouch then
             { mousemove := false, mouseup := false, touchmove := false,
               touchend := true, cancel := true }
           else
             { mousemove := false, mouseup := true, touchmove := false,
               touchend := false, cancel := false }
    dismissing := false
    inDom := true
    pendingRemovals := []
    removed := 0
    dismissals := 0
    lastCommitDirection := none
    effects := [] }

/-- Input events delivered by the platform.  Element-level events
(`mousedown`, `touchstart`) reach the card only while its element is in
the DOM; document-level events reach the registered handlers whenever
the corresponding listener flag is set.  `timerFire` is the expiry of
the oldest pending `setTimeout` removal callback. -/
inductive Ev
  | mousedown (x y : ℚ)
  | mousemove (x y : ℚ)
  | mouseup
  | touchstart (t : Option Point)
  | touchmove (t : Option Point)
  | touchend
  | cancelFire
  | timerFire
deriving DecidableEq, Repr

/-- One step of the event-dispatch semantics: each handler runs exactly
when its listener is currently registered. -/
def step (p : CardParams) (s : CardState) (e : Ev) : CardState :=
  match e with
  | Ev.mousedown x y =>
      if s.inDom && s.elem.mousedown then handleMouseDown s x y else s
  | Ev.mousemove x y =>
      if s.doc.mousemove then handleMouseMove p s x y else s
  | Ev.mouseup =>
      if s.doc.mouseup then handleMoveUp s else s
  | Ev.touchstart t =>
      if s.inDom && s.elem.touchstart then handleTouchStart s t else s
  | Ev.touchmove t =>
      if s.doc.touchmove then handleTouchMove p s t else s
  | Ev.touchend =>
      if s.doc.touchend then handleTouchEnd s else s
  | Ev.cancelFire =>
      if s.doc.cancel then handleTouchEnd s else s
  | Ev.timerFire =>
      match s.pendingRemovals with
      | [] => s
      | _ :: rest =>
          { s with pendingRemovals := rest, inDom := false, removed := s.removed + 1 }

/-- Run a sequence of events from a state. -/
def run (p : CardParams) (s : CardState) (evs : List Ev) : CardState :=
  evs.foldl (step p) s

/-- The outcome of the fire-and-forget `/react` fetch: the promise chain
either resolves with parsed JSON, or rejects somewhere (network or JSON
parse) and reaches the `.catch`. -/
inductive FetchOutcome
  | ok
  | failed
deriving DecidableEq, Repr

/-- The `/react` promise continuation (`card.js` lines 156-158):
`.then(data => console.log(data)).catch(error => console.error(...))` —
it only logs. -/
def reactContinuation (s : CardState) (o : FetchOutcome) : CardState :=
  match o with
  | FetchOutcome.ok => { s with effects := s.effects ++ [Effect.logData] }
  | FetchOutcome.failed => { s with effects := s.effects ++ [Effect.logFetchError] }

/-!
Deck bookkeeping from `www/app/static/cardContainer.js`: the module-level
`cardCount` variable and the `onDismiss` closure passed to each `Card`
(lines 19-26), together with `cardsEmpty` (lines 55-71).
-/

/-- The deck-level mutable state of `cardContainer.js`: the module
variable `cardCount` and the emitted effect trace. -/
structure StackState where
  cardCount : ℤ
  effects : List Effect
deriving DecidableEq, Repr

/-- `cardsEmpty()` (`cardContainer.js` lines 55-71): logs and issues the
`POST /cards-depleted` notification.  It is called with no guard other
than the caller's `cardCount <= 0` test. -/
def cardsEmpty (s : StackState) : StackState :=
  { s with effects := s.effects ++ [Effect.logAllSwiped, Effect.fetchDepleted] }

/-- The `onDismiss` closure wired into every card (`cardContainer.js`
lines 19-26): `cardCount--; console.log(...); if (cardCount <= 0)
cardsEmpty();`.  There is no further state. -/
def decrementLiveCount (s : StackState) : StackState :=
  let c := s.cardCount - 1
  let s1 : StackState := { cardCount := c, effects := s.effects ++ [Effect.logCount c] }
  if c ≤ 0 then cardsEmpty s1 else s1

/-- `appendNewCard`'s deck bookkeeping (`cardContainer.js` lines 40-41):
`cardCount++; console.log(...)`. -/
def appendNewCard (s : StackState) : StackState :=
  { cardCount := s.cardCount + 1,
    effects := s.effects ++ [Effect.logCardAdded (s.cardCount + 1)] }

/-- The layout recompute of `appendNewCard` (`cardContainer.js` lines
44-47) queries `'.card:not(.dismissing)'`: only cards without the
`dismissing` class participate in index assignment. -/
def visibleCards (cs : List CardState) : List CardState :=
  cs.filter (fun c => !c.dismissing)

/-!
Like-button widget from `www/app/static/ajax.js`.
-/

/-- The parsed JSON body of a `/toggle_count/{id}` response, with the two
fields the handler reads (`data.error`, `data.like_count`); either may
be absent. -/
structure ToggleData where
  like_count : Option ℤ
  error : Option String
deriving DecidableEq, Repr

/-- JavaScript truthiness of the optional string `data.error`:
`undefined` and the empty string are falsy. -/
def truthyStr : Option String → Bool
  | none => false
  | some s => s ≠ ""

/-- The outcome of the `/toggle_count` fetch promise chain: parsed JSON
data, or a rejection reaching the `.catch`. -/
inductive ToggleOutcome
  | ok (data : ToggleData)
  | failed
deriving DecidableEq, Repr

/-- Observable state of one like button and its counter display
(`ajax.js`): the `data-liked` attribute read as a boolean, the
`textContent` of the matching `.like-count` element (set to
`data.like_count`, possibly `undefined`), and the number of
`console.error` calls. -/
structure WidgetState where
  liked : Bool
  display : Option ℤ
  errorLogs : ℕ
deriving DecidableEq, Repr

/-- The response/rejection handler of the click listener (`ajax.js` lines
16-27), with `capturedLiked` the value of `liked` read at click time:
`if (data.error) { console.error } else { display := data.like_count;
data-liked := (!liked).toString() }`, and `.catch` logs only. -/
def handleToggleOutcome (capturedLiked : Bool) (w : WidgetState)
    (o : ToggleOutcome) : WidgetState :=
  match o with
  | ToggleOutcome.failed => { w with errorLogs := w.errorLogs + 1 }
  | ToggleOutcome.ok d =>
      if truthyStr d.error then
        { w with errorLogs := w.errorLogs + 1 }
      else
        { w with display := d.like_count, liked := !capturedLiked }

/-- One full click transaction on a like button (`ajax.js` lines 4-28):
reads `liked` from the attribute, sends `POST /toggle_count/{id}` with
body `{ liked: !liked }` (returned as the second component), and
processes the outcome. -/
def likeButtonClick (w : WidgetState) (o : ToggleOutcome) : WidgetState × Bool :=
  let liked := w.liked
  (handleToggleOutcome liked w o, !liked)

/-- Concrete card parameters used for counterexample traces and
witnesses: a 100-px-wide card in a 1000-px viewport, all three
lifecycle callbacks supplied. -/
def demoP : CardParams :=
  { carID := "car1", clientWidth := 100, innerWidth := 1000,
    hasOnDismiss := true, hasOnLike := true, hasOnDislike := true }

/-- A list of mouse-move events from a list of coordinates. -/
def moveEvs (ps : List (ℚ × ℚ)) : List Ev :=
  ps.map (fun q => Ev.mousemove q.1 q.2)

/-- Recognizes lifecycle callback effects. -/
def isCallbackEffect : Effect → Bool
  | Effect.callDismiss => true
  | Effect.callLike => true
  | Effect.callDislike => true
  | _ => false

/-- Recognizes the `POST /react` outcome-report effect. -/
def isReactFetch : Effect → Bool
  | Effect.fetchReact _ _ => true
  | _ => false

end Swipe

namespace Swipe

/-- Helper: `#handleMove` never changes the element listeners and never
adds a document listener (its dismissing branch only removes them). -/
theorem handleMove_listeners (p : CardParams) (s : CardState) (sp : Point) (x y : ℚ) :
    (handleMove p s sp x y).elem = s.elem ∧
    ((handleMove p s sp x y).doc.mousemove = true → s.doc.mousemove = true) ∧
    ((handleMove p s sp x y).doc.mouseup = true → s.doc.mouseup = true) ∧
    ((handleMove p s sp x y).doc.touchmove = true → s.doc.touchmove = true) ∧
    ((handleMove p s sp x y).doc.touchend = true → s.doc.touchend = true) ∧
    ((handleMove p s sp x y).doc.cancel = true → s.doc.cancel = true) := by
  by_cases h : |x - sp.x| > p.clientWidth * (7 / 10)
  · simp [handleMove, h, dismiss]
  · simp [handleMove, h]

/-- Helper: a run of mouse-move events all of whose horizontal offsets
from the anchor stay within the `0.7 * clientWidth` threshold never
reaches `#dismiss`, keeps the anchor, and leaves every listener flag
unchanged. -/
theorem run_moves_below_threshold (p : CardParams) (sp : Point) :
    ∀ (ps : List (ℚ × ℚ)) (s : CardState), s.startPoint = some sp →
      (∀ q ∈ ps, |q.1 - sp.x| ≤ p.clientWidth * (7 / 10)) →
      (run p s (moveEvs ps)).dismissals = s.dismissals ∧
      (run p s (moveEvs ps)).startPoint = some sp ∧
      (run p s (moveEvs ps)).doc = s.doc := by
  intro ps
  induction ps with
  | nil =>
      intro s hsp _
      exact ⟨rfl, hsp, rfl⟩
  | cons q ps ih =>
      intro s hsp hall
      have hq : |q.1 - sp.x| ≤ p.clientWidth * (7 / 10) :=
        hall q (List.mem_cons_self q ps)
      have hrest : ∀ r ∈ ps, |r.1 - sp.x| ≤ p.clientWidth * (7 / 10) :=
        fun r hr => hall r (List.mem_cons_of_mem q hr)
      have hstep : (step p s (Ev.mousemove q.1 q.2)).dismissals = s.dismissals ∧
          (step p s (Ev.mousemove q.1 q.2)).startPoint = some sp ∧
          (step p s (Ev.mousemove q.1 q.2)).doc = s.doc := by
        by_cases hmm : s.doc.mousemove
        · have hnot : ¬ (|q.1 - sp.x| > p.clientWidth * (7 / 10)) := not_lt.mpr hq
          simp [step, hmm, handleMouseMove, hsp, handleMove, hnot]
        · simp [step, hmm, hsp]
      have hrun : run p s (moveEvs (q :: ps)) =
          run p (step p s (Ev.mousemove q.1 q.2)) (moveEvs ps) := by
        simp [run, moveEvs]
      rw [hrun]
      have ihres := ih (step p s (Ev.mousemove q.1 q.2)) hstep.2.1 hrest
      exact ⟨by rw [ihres.1, hstep.1], ihres.2.1, by rw [ihres.2.2, hstep.2.2]⟩

/-- C1.  The claim states that the deck-exhausted notification
(`POST /cards-depleted`) fires at most once per deck lifetime even when
`decrementLiveCount` is invoked redundantly.  Counterexample: starting
from a deck of one live card, two invocations of the `onDismiss`
closure fire the notification twice (the code has no terminal empty
flag; every decrement with resulting count `<= 0` calls
`cardsEmpty`). -/
theorem C1_counterexample :
    ¬ (((decrementLiveCount (decrementLiveCount ⟨1, []⟩)).effects.count
          Effect.fetchDepleted) ≤ 1) := by
  decide

/-- C1 amended: `decrementLiveCount` decrements the live count, and fires
the deck-exhausted notification exactly when the decremented count is
`<= 0` — once per such invocation, with no once-only latch.  (The
notification therefore repeats if the count goes negative.) -/
theorem C1_amended (s : StackState) :
    (decrementLiveCount s).cardCount = s.cardCount - 1 ∧
    (decrementLiveCount s).effects.count Effect.fetchDepleted =
      s.effects.count Effect.fetchDepleted +
        (if s.cardCount ≤ 1 then 1 else 0) := by
  by_cases h : s.cardCount - 1 ≤ 0
  · have h' : s.cardCount ≤ 1 := by omega
    simp [decrementLiveCount, cardsEmpty, h, h', List.count_append]
  · have h' : ¬ s.cardCount ≤ 1 := by omega
    simp [decrementLiveCount, cardsEmpty, h, h', List.count_append]

/-- C2.  The claim states that after a commit no document-level move or
end listener registered by the card remains bound.  Counterexample: on
a touch device, the gesture `touchstart at (0,0)`, `touchmove to
(100,0)` (past the `70`-px threshold of a 100-px card) commits, and
afterwards the document-level `cancel` listener — registered at
construction with handler `#handleTouchEnd` — is still bound:
`#dismiss` removes `mouseup`, `mousemove`, `touchend` and `touchmove`
but not `cancel`. -/
theorem C2_counterexample :
    ¬ (((run demoP (initCard true)
          [Ev.touchstart (some ⟨0, 0⟩), Ev.touchmove (some ⟨100, 0⟩)]).doc.mousemove
            = false) ∧
       ((run demoP (initCard true)
          [Ev.touchstart (some ⟨0, 0⟩), Ev.touchmove (some ⟨100, 0⟩)]).doc.mouseup
            = false) ∧
       ((run demoP (initCard true)
          [Ev.touchstart (some ⟨0, 0⟩), Ev.touchmove (some ⟨100, 0⟩)]).doc.touchmove
            = false) ∧
       ((run demoP (initCard true)
          [Ev.touchstart (some ⟨0, 0⟩), Ev.touchmove (some ⟨100, 0⟩)]).doc.touchend
            = false) ∧
       ((run demoP (initCard true)
          [Ev.touchstart (some ⟨0, 0⟩), Ev.touchmove (some ⟨100, 0⟩)]).doc.cancel
            = false)) := by
  norm_num [run, step, initCard, demoP, handleTouchStart, handleTouchMove,
    handleMove, dismiss, List.foldl]

/-- C2 amended: on entry to Committing, `#dismiss` unconditionally
removes the document-level `mousemove`, `mouseup`, `touchmove` and
`touchend` listeners regardless of which input family was active, but
it leaves the document-level `cancel` listener (bound at construction
by the touch family) untouched, so on a touch device one end listener
remains bound after the commit. -/
theorem C2_amended (p : CardParams) (s : CardState) (d : ℤ) :
    (dismiss p s d).doc.mousemove = false ∧
    (dismiss p s d).doc.mouseup = false ∧
    (dismiss p s d).doc.touchmove = false ∧
    (dismiss p s d).doc.touchend = false ∧
    (dismiss p s d).doc.cancel = s.doc.cancel := by
  simp [dismiss]

/-- C3.  The claim states that a settle removes the document-level move
and end listeners (said to be bound only during the gesture) and resets
the transform while re-enabling the default transition.
Counterexample: the mouse gesture `mousedown (0,0)`, `mousemove (10,0)`
(below threshold), `mouseup` settles, and afterwards the document-level
`mouseup` end listener is still bound (it was bound at construction,
and `#handleMoveUp` removes only `mousemove`) and the inline transition
is still `transform 0s` (never restored). -/
theorem C3_counterexample :
    ¬ (((run demoP (initCard false)
          [Ev.mousedown 0 0, Ev.mousemove 10 0, Ev.mouseup]).startPoint = none) ∧
       ((run demoP (initCard false)
          [Ev.mousedown 0 0, Ev.mousemove 10 0, Ev.mouseup]).doc.mousemove = false) ∧
       ((run demoP (initCard false)
          [Ev.mousedown 0 0, Ev.mousemove 10 0, Ev.mouseup]).doc.mouseup = false) ∧
       ((run demoP (initCard false)
          [Ev.mousedown 0 0, Ev.mousemove 10 0, Ev.mouseup]).transform
            = TransformStyle.empty) ∧
       ((run demoP (initCard false)
          [Ev.mousedown 0 0, Ev.mousemove 10 0, Ev.mouseup]).transition
            = TransitionStyle.unset)) := by
  norm_num [run, step, initCard, demoP, handleMouseDown, handleMouseMove,
    handleMove, handleMoveUp, List.foldl]

/-- C3 amended: on a settle the engine clears the drag anchor, removes
only the document-level move listener of the active family, and resets
the transform to the resting value; the end listeners (`mouseup`,
`touchend`, `cancel`), which were bound at construction rather than per
gesture, remain bound, and the inline transition keeps whatever value
it had (the `transform 0s` suspension is not undone). -/
theorem C3_amended (s : CardState) :
    (handleMoveUp s).startPoint = none ∧
    (handleMoveUp s).doc.mousemove = false ∧
    (handleMoveUp s).transform = TransformStyle.empty ∧
    (handleMoveUp s).doc.mouseup = s.doc.mouseup ∧
    (handleMoveUp s).transition = s.transition ∧
    (handleTouchEnd s).startPoint = none ∧
    (handleTouchEnd s).doc.touchmove = false ∧
    (handleTouchEnd s).transform = TransformStyle.empty ∧
    (handleTouchEnd s).doc.touchend = s.doc.touchend ∧
    (handleTouchEnd s).doc.cancel = s.doc.cancel ∧
    (handleTouchEnd s).transition = s.transition := by
  simp [handleMoveUp, handleTouchEnd]

/-- C8.  For every commit with direction `d`, the exit animation
translates by `d * window.innerWidth` horizontally while preserving the
stored vertical offset, rotates by `45 * d` degrees, re-enables a 1-s
transition, marks the card with the `dismissing` class — which excludes
it from the container's layout-index recompute, whose selector is
`.card:not(.dismissing)` — and schedules exactly one removal timer of
1000 ms. -/
theorem C8_exit_animation (p : CardParams) (s : CardState) (d : ℤ)
    (cs : List CardState) :
    (dismiss p s d).transform =
      TransformStyle.trs ((d : ℚ) * p.innerWidth) s.offsetY (45 * (d : ℚ)) ∧
    (dismiss p s d).transition = TransitionStyle.oneS ∧
    (dismiss p s d).dismissing = true ∧
    (dismiss p s d).pendingRemovals = s.pendingRemovals ++ [1000] ∧
    dismiss p s d ∉ visibleCards cs := by
  refine ⟨rfl, rfl, rfl, rfl, ?_⟩
  intro hmem
  have h := (List.mem_filter.mp hmem).2
  simp [dismiss] at h

/-- C10.  The claim states that whenever the `/toggle_count` response
contains `like_count` the widget updates the counter display and flips
the liked flag.  Counterexample: for the response
`{ like_count: 5, error: "boom" }` the handler takes the
`if (data.error)` branch, logs, and leaves both the display and the
flag unchanged. -/
theorem C10_counterexample :
    ¬ (((likeButtonClick ⟨false, none, 0⟩
          (ToggleOutcome.ok ⟨some 5, some "boom"⟩)).1.display = some 5) ∧
       ((likeButtonClick ⟨false, none, 0⟩
          (ToggleOutcome.ok ⟨some 5, some "boom"⟩)).1.liked = true)) := by
  decide

/-- C10 amended: the click sends `POST /toggle_count/{id}` with body
`{ liked: !b }`; the handler gives the error field priority — if the
response's `error` is truthy it logs only, leaving display and flag
unchanged (likewise on request failure); only otherwise does it set the
counter display to the response's `like_count` field and flip the liked
flag to `!b`. -/
theorem C10_amended (w : WidgetState) (d : ToggleData) :
    ((likeButtonClick w (ToggleOutcome.ok d)).2 = !w.liked) ∧
    ((likeButtonClick w ToggleOutcome.failed).2 = !w.liked) ∧
    ((likeButtonClick w ToggleOutcome.failed).1 =
      { w with errorLogs := w.errorLogs + 1 }) ∧
    (truthyStr d.error = true →
      (likeButtonClick w (ToggleOutcome.ok d)).1 =
        { w with errorLogs := w.errorLogs + 1 }) ∧
    (truthyStr d.error = false →
      (likeButtonClick w (ToggleOutcome.ok d)).1 =
        { w with display := d.like_count, liked := !w.liked }) := by
  refine ⟨rfl, rfl, rfl, ?_, ?_⟩ <;> intro h <;>
    simp [likeButtonClick, handleToggleOutcome, h]

/-- C4.  For every move event delivered while a gesture is active
(anchor set, document move listener bound): if the horizontal offset
exceeds `0.7 * clientWidth` in absolute value, the same step runs
`#dismiss` (Committing) with direction `+1` when the offset is positive
and `-1` when negative — the sign of the offset, which is nonzero at
any crossing since `clientWidth >= 0`; and any sequence of moves whose
offsets all stay within the threshold never commits, after which a
mouse-up settles the card back to the resting transform. -/
theorem C4_threshold (p : CardParams) (s : CardState) (sp : Point)
    (hw : 0 ≤ p.clientWidth) (hsp : s.startPoint = some sp)
    (hmm : s.doc.mousemove = true) :
    (∀ x y : ℚ, p.clientWidth * (7 / 10) < |x - sp.x| →
      x - sp.x ≠ 0 ∧
      (step p s (Ev.mousemove x y)).dismissals = s.dismissals + 1 ∧
      (step p s (Ev.mousemove x y)).lastCommitDirection =
        some (if 0 < x - sp.x then 1 else -1) ∧
      (0 < x - sp.x → (step p s (Ev.mousemove x y)).lastCommitDirection = some 1) ∧
      (x - sp.x < 0 →
        (step p s (Ev.mousemove x y)).lastCommitDirection = some (-1))) ∧
    (∀ ps : List (ℚ × ℚ),
      (∀ q ∈ ps, |q.1 - sp.x| ≤ p.clientWidth * (7 / 10)) →
      (run p s (moveEvs ps)).dismissals = s.dismissals ∧
      (run p s (moveEvs ps)).startPoint = some sp ∧
      (s.doc.mouseup = true →
        (run p s (moveEvs ps ++ [Ev.mouseup])).transform = TransformStyle.empty ∧
        (run p s (moveEvs ps ++ [Ev.mouseup])).dismissals = s.dismissals)) := by
  constructor
  · intro x y hthr
    have hge : (0 : ℚ) ≤ p.clientWidth * (7 / 10) := by
      apply mul_nonneg hw
      norm_num
    have hne : x - sp.x ≠ 0 := abs_pos.mp (lt_of_le_of_lt hge hthr)
    refine ⟨hne, ?_⟩
    have hx : step p s (Ev.mousemove x y) =
        dismiss p
          { s with offsetX := some (x - sp.x), offsetY := some (y - sp.y),
                   transform := TransformStyle.trs (x - sp.x) (some (y - sp.y))
                     ((x - sp.x) * (1 / 10)) }
          (if 0 < x - sp.x then 1 else -1) := by
      simp [step, hmm, handleMouseMove, hsp, handleMove, hthr]
    rw [hx]
    refine ⟨rfl, rfl, ?_, ?_⟩
    · intro hpos
      simp [dismiss, hpos]
    · intro hneg
      have hnotpos : ¬ (0 < x - sp.x) := by linarith
      simp [dismiss, hnotpos]
  · intro ps hall
    have hrun := run_moves_below_threshold p sp ps s hsp hall
    refine ⟨hrun.1, hrun.2.1, ?_⟩
    intro hmu
    have happ : run p s (moveEvs ps ++ [Ev.mouseup]) =
        step p (run p s (moveEvs ps)) Ev.mouseup := by
      simp [run, List.foldl_append]
    have hmu2 : (run p s (moveEvs ps)).doc.mouseup = true := by
      rw [hrun.2.2]
      exact hmu
    rw [happ]
    constructor
    · simp [step, hmu2, handleMoveUp]
    · simp [step, hmu2, handleMoveUp, hrun.1]

/-- C4 witness: on a freshly pressed 100-px card, a move to `x = 80`
(offset 80 > 70) commits in the same step. -/
theorem C4_witness :
    ((0 : ℚ) ≤ demoP.clientWidth) ∧
    ((step demoP (handleMouseDown (initCard false) 0 0)
        (Ev.mousemove 80 0)).dismissals =
      (handleMouseDown (initCard false) 0 0).dismissals + 1) := by
  refine ⟨by norm_num [demoP], ?_⟩
  have h := C4_threshold demoP (handleMouseDown (initCard false) 0 0) ⟨0, 0⟩
    (by norm_num [demoP]) (by simp [handleMouseDown])
    (by simp [handleMouseDown])
  exact (h.1 80 0 (by norm_num [demoP])).2.1

/-- C5.  For every commit (run of `#dismiss` with direction `+1` or
`-1`), with all three lifecycle callbacks supplied, the emitted
callback sequence is exactly `onDismiss` followed by exactly one of
`onLike` (direction `+1`) or `onDislike` (direction `-1`) — never both,
never neither. -/
theorem C5_commit_callbacks (p : CardParams) (s : CardState) (d : ℤ)
    (h1 : p.hasOnDismiss = true) (h2 : p.hasOnLike = true)
    (h3 : p.hasOnDislike = true) (hd : d = 1 ∨ d = -1) :
    ((dismiss p s d).effects = s.effects ++ dismissEffects p d) ∧
    (dismissEffects p d).filter isCallbackEffect =
      Effect.callDismiss ::
        (if d = 1 then [Effect.callLike] else [Effect.callDislike]) := by
  refine ⟨rfl, ?_⟩
  rcases hd with h | h <;> subst h <;>
    simp [dismissEffects, isCallbackEffect, h1, h2, h3]

/-- C5 witness: the callback sequence of a like commit with all
callbacks supplied. -/
theorem C5_witness :
    (dismissEffects demoP 1).filter isCallbackEffect =
      [Effect.callDismiss, Effect.callLike] := by
  have h := C5_commit_callbacks demoP (initCard false) 1 rfl rfl rfl (Or.inl rfl)
  simpa using h.2

/-- C6.  Every commit appends exactly one `POST /react` report, with body
`carID` = the card's id string and `swiped_right` = (direction `== 1`),
emitted at commit time (`#dismiss`), while the removal timer emits
nothing; the report's promise continuation only logs: it changes no
gesture state, schedules nothing, and issues no further `/react`
request, whether the fetch resolves or rejects. -/
theorem C6_react_report (p : CardParams) (s : CardState) (d : ℤ)
    (o : FetchOutcome) :
    ((dismiss p s d).effects = s.effects ++ dismissEffects p d) ∧
    ((dismissEffects p d).filter isReactFetch =
      [Effect.fetchReact p.carID (d == 1)]) ∧
    ((reactContinuation s o).startPoint = s.startPoint ∧
     (reactContinuation s o).doc = s.doc ∧
     (reactContinuation s o).transform = s.transform ∧
     (reactContinuation s o).transition = s.transition ∧
     (reactContinuation s o).pendingRemovals = s.pendingRemovals ∧
     (reactContinuation s o).dismissals = s.dismissals ∧
     (reactContinuation s o).effects.filter isReactFetch =
       s.effects.filter isReactFetch) ∧
    ((step p s Ev.timerFire).effects = s.effects) := by
  refine ⟨rfl, ?_, ?_, ?_⟩
  · cases hp1 : p.hasOnDismiss <;> cases hp2 : p.hasOnLike <;>
      cases hp3 : p.hasOnDislike <;> cases hb : (d == 1) <;>
      cases hc : (d == -1) <;>
      simp [dismissEffects, isReactFetch, hp1, hp2, hp3, hb, hc]
  · cases o <;> simp [reactContinuation, isReactFetch]
  · cases hr : s.pendingRemovals <;> simp [step, hr]

/-- C7.  The claim states that Committing is terminal: no further gesture
can begin on a dismissed card and a second commit is impossible during
the pre-removal window.  Counterexample: on a 100-px mouse card, the
trace `mousedown, move to 80, mousedown, move to 80` commits twice —
`#dismiss` removes the document listeners but leaves the element-level
`mousedown` listener bound and the element in the DOM for 1000 ms, so a
new drag re-arms and re-commits. -/
theorem C7_counterexample :
    ¬ ((run demoP (initCard false)
        [Ev.mousedown 0 0, Ev.mousemove 80 0,
         Ev.mousedown 0 0, Ev.mousemove 80 0]).dismissals ≤ 1) := by
  norm_num [run, step, initCard, demoP, handleMouseDown, handleMouseMove,
    handleMove, dismiss, List.foldl]

/-- C7 amended: a commit clears the anchor and document listeners and
schedules exactly one 1000-ms removal, but it neither unbinds the
element-level drag-start listener nor detaches the element, so while
the element is still in the DOM a new mouse-down starts a fresh gesture
(anchor set, document move listener re-bound) — Committing is not
terminal for the card's input surface. -/
theorem C7_amended (p : CardParams) (s : CardState) (d : ℤ) (x y : ℚ)
    (hin : s.inDom = true) (hmd : s.elem.mousedown = true) :
    (dismiss p s d).elem = s.elem ∧
    (dismiss p s d).inDom = s.inDom ∧
    (dismiss p s d).pendingRemovals = s.pendingRemovals ++ [1000] ∧
    (step p (dismiss p s d) (Ev.mousedown x y)).startPoint = some ⟨x, y⟩ ∧
    (step p (dismiss p s d) (Ev.mousedown x y)).doc.mousemove = true := by
  refine ⟨rfl, rfl, rfl, ?_, ?_⟩ <;>
    simp [step, dismiss, handleMouseDown, hin, hmd]

/-- C7 witness: after a commit on a fresh mouse card, a mouse-down starts
a new gesture. -/
theorem C7_witness :
    (step demoP (dismiss demoP (initCard false) 1)
      (Ev.mousedown 0 0)).startPoint = some ⟨0, 0⟩ := by
  have h := C7_amended demoP (initCard false) 1 0 0 rfl rfl
  exact h.2.2.2.1

/-- Helper: no step of the event semantics changes the element-level
listeners, no step adds an end listener (`mouseup`, `touchend`,
`cancel`), and a document move listener can only appear through the
matching family's start listener. -/
theorem step_listener_monotone (p : CardParams) (s : CardState) (e : Ev) :
    (step p s e).elem = s.elem ∧
    ((step p s e).doc.mouseup = true → s.doc.mouseup = true) ∧
    ((step p s e).doc.touchend = true → s.doc.touchend = true) ∧
    ((step p s e).doc.cancel = true → s.doc.cancel = true) ∧
    ((step p s e).doc.touchmove = true →
      s.doc.touchmove = true ∨ s.elem.touchstart = true) ∧
    ((step p s e).doc.mousemove = true →
      s.doc.mousemove = true ∨ s.elem.mousedown = true) := by
  cases e with
  | mousedown x y =>
      by_cases h : (s.inDom && s.elem.mousedown) = true
      · have hm : s.elem.mousedown = true := by
          rw [Bool.and_eq_true] at h
          exact h.2
        have hstep : step p s (Ev.mousedown x y) = handleMouseDown s x y := by
          simp [step, h]
        rw [hstep]
        exact ⟨rfl, fun h2 => h2, fun h2 => h2, fun h2 => h2,
          fun h2 => Or.inl h2, fun _ => Or.inr hm⟩
      · have hstep : step p s (Ev.mousedown x y) = s := by
          simp [step, h]
        rw [hstep]
        exact ⟨rfl, fun h2 => h2, fun h2 => h2, fun h2 => h2,
          fun h2 => Or.inl h2, fun h2 => Or.inl h2⟩
  | mousemove x y =>
      by_cases h : s.doc.mousemove = true
      · cases hsp : s.startPoint with
        | none =>
            have hstep : step p s (Ev.mousemove x y) = s := by
              simp [step, h, handleMouseMove, hsp]
            rw [hstep]
            exact ⟨rfl, fun h2 => h2, fun h2 => h2, fun h2 => h2,
              fun h2 => Or.inl h2, fun h2 => Or.inl h2⟩
        | some sp =>
            have hstep : step p s (Ev.mousemove x y) = handleMove p s sp x y := by
              simp [step, h, handleMouseMove, hsp]
            rw [hstep]
            have hm := handleMove_listeners p s sp x y
            exact ⟨hm.1, hm.2.2.1, hm.2.2.2.2.1, hm.2.2.2.2.2,
              fun ht => Or.inl (hm.2.2.2.1 ht),
              fun ht => Or.inl (hm.2.1 ht)⟩
      · have hstep : step p s (Ev.mousemove x y) = s := by
          simp [step, h]
        rw [hstep]
        exact ⟨rfl, fun h2 => h2, fun h2 => h2, fun h2 => h2,
          fun h2 => Or.inl h2, fun h2 => Or.inl h2⟩
  | mouseup =>
      by_cases h : s.doc.mouseup = true
      · have hstep : step p s Ev.mouseup = handleMoveUp s := by
          simp [step, h]
        rw [hstep]
        exact ⟨rfl, fun h2 => h2, fun h2 => h2, fun h2 => h2,
          fun h2 => Or.inl h2, fun h2 => Bool.noConfusion h2⟩
      · have hstep : step p s Ev.mouseup = s := by
          simp [step, h]
        rw [hstep]
        exact ⟨rfl, fun h2 => h2, fun h2 => h2, fun h2 => h2,
          fun h2 => Or.inl h2, fun h2 => Or.inl h2⟩
  | touchstart t =>
      by_cases h : (s.inDom && s.elem.touchstart) = true
      · have hm : s.elem.touchstart = true := by
          rw [Bool.and_eq_true] at h
          exact h.2
        cases t with
        | none =>
            have hstep : step p s (Ev.touchstart none) = s := by
              simp [step, h, handleTouchStart]
            rw [hstep]
            exact ⟨rfl, fun h2 => h2, fun h2 => h2, fun h2 => h2,
              fun h2 => Or.inl h2, fun h2 => Or.inl h2⟩
        | some pt =>
            have hstep : step p s (Ev.touchstart (some pt)) =
                handleTouchStart s (some pt) := by
              simp [step, h]
            rw [hstep]
            exact ⟨rfl, fun h2 => h2, fun h2 => h2, fun h2 => h2,
              fun _ => Or.inr hm, fun h2 => Or.inl h2⟩
      · have hstep : step p s (Ev.touchstart t) = s := by
          simp [step, h]
        rw [hstep]
        exact ⟨rfl, fun h2 => h2, fun h2 => h2, fun h2 => h2,
          fun h2 => Or.inl h2, fun h2 => Or.inl h2⟩
  | touchmove t =>
      by_cases h : s.doc.touchmove = true
      · cases hsp : s.startPoint with
        | none =>
            have hstep : step p s (Ev.touchmove t) = s := by
              simp [step, h, handleTouchMove, hsp]
            rw [hstep]
            exact ⟨rfl, fun h2 => h2, fun h2 => h2, fun h2 => h2,
              fun h2 => Or.inl h2, fun h2 => Or.inl h2⟩
        | some sp =>
            cases t with
            | none =>
                have hstep : step p s (Ev.touchmove none) = s := by
                  simp [step, h, handleTouchMove, hsp]
                rw [hstep]
                exact ⟨rfl, fun h2 => h2, fun h2 => h2, fun h2 => h2,
                  fun h2 => Or.inl h2, fun h2 => Or.inl h2⟩
            | some pt =>
                have hstep : step p s (Ev.touchmove (some pt)) =
                    handleMove p s sp pt.x pt.y := by
                  simp [step, h, handleTouchMove, hsp]
                rw [hstep]
                have hm := handleMove_listeners p s sp pt.x pt.y
                exact ⟨hm.1, hm.2.2.1, hm.2.2.2.2.1, hm.2.2.2.2.2,
                  fun ht => Or.inl (hm.2.2.2.1 ht),
                  fun ht => Or.inl (hm.2.1 ht)⟩
      · have hstep : step p s (Ev.touchmove t) = s := by
          simp [step, h]
        rw [hstep]
        exact ⟨rfl, fun h2 => h2, fun h2 => h2, fun h2 => h2,
          fun h2 => Or.inl h2, fun h2 => Or.inl h2⟩
  | touchend =>
      by_cases h : s.doc.touchend = true
      · have hstep : step p s Ev.touchend = handleTouchEnd s := by
          simp [step, h]
        rw [hstep]
        exact ⟨rfl, fun h2 => h2, fun h2 => h2, fun h2 => h2,
          fun h2 => Bool.noConfusion h2, fun h2 => Or.inl h2⟩
      · have hstep : step p s Ev.touchend = s := by
          simp [step, h]
        rw [hstep]
        exact ⟨rfl, fun h2 => h2, fun h2 => h2, fun h2 => h2,
          fun h2 => Or.inl h2, fun h2 => Or.inl h2⟩
  | cancelFire =>
      by_cases h : s.doc.cancel = true
      · have hstep : step p s Ev.cancelFire = handleTouchEnd s := by
          simp [step, h]
        rw [hstep]
        exact ⟨rfl, fun h2 => h2, fun h2 => h2, fun h2 => h2,
          fun h2 => Bool.noConfusion h2, fun h2 => Or.inl h2⟩
      · have hstep : step p s Ev.cancelFire = s := by
          simp [step, h]
        rw [hstep]
        exact ⟨rfl, fun h2 => h2, fun h2 => h2, fun h2 => h2,
          fun h2 => Or.inl h2, fun h2 => Or.inl h2⟩
  | timerFire =>
      cases hr : s.pendingRemovals with
      | nil =>
          have hstep : step p s Ev.timerFire = s := by
            simp [step, hr]
          rw [hstep]
          exact ⟨rfl, fun h2 => h2, fun h2 => h2, fun h2 => h2,
            fun h2 => Or.inl h2, fun h2 => Or.inl h2⟩
      | cons r rest =>
          have hstep : step p s Ev.timerFire =
              { s with pendingRemovals := rest, inDom := false,
                       removed := s.removed + 1 } := by
            simp [step, hr]
          rw [hstep]
          exact ⟨rfl, fun h2 => h2, fun h2 => h2, fun h2 => h2,
            fun h2 => Or.inl h2, fun h2 => Or.inl h2⟩

/-- C9.  Input capability is probed exactly once, at construction
(`#init` evaluates `#isTouchDevice()` once and branches): the touch
probe binds the touch family (`touchstart` on the element, `touchend`
and `cancel` on the document) and no mouse listener, the mouse probe
binds the mouse family (`mousedown` on the element, `mouseup` on the
document) and no touch listener; and no later event ever changes the
element listeners, adds an end listener, or binds the opposite family's
move listener — so exactly one family stays bound for the card's
lifetime. -/
theorem C9_input_family (p : CardParams) (s : CardState) (e : Ev) :
    ((initCard true).elem.touchstart = true ∧
     (initCard true).elem.mousedown = false ∧
     (initCard true).doc.touchend = true ∧
     (initCard true).doc.cancel = true ∧
     (initCard true).doc.mouseup = false) ∧
    ((initCard false).elem.mousedown = true ∧
     (initCard false).elem.touchstart = false ∧
     (initCard false).doc.mouseup = true ∧
     (initCard false).doc.touchend = false ∧
     (initCard false).doc.cancel = false) ∧
    ((step p s e).elem = s.elem) ∧
    ((step p s e).doc.mouseup = true → s.doc.mouseup = true) ∧
    ((step p s e).doc.touchend = true → s.doc.touchend = true) ∧
    ((step p s e).doc.cancel = true → s.doc.cancel = true) ∧
    (s.elem.touchstart = false → s.doc.touchmove = false →
      (step p s e).doc.touchmove = false) ∧
    (s.elem.mousedown = false → s.doc.mousemove = false →
      (step p s e).doc.mousemove = false) := by
  have mono := step_listener_monotone p s e
  refine ⟨by simp [initCard], by simp [initCard], mono.1, mono.2.1,
    mono.2.2.1, mono.2.2.2.1, ?_, ?_⟩
  · intro h1 h2
    cases h3 : (step p s e).doc.touchmove
    · rfl
    · rcases mono.2.2.2.2.1 h3 with h | h
      · rw [h2] at h
        exact Bool.noConfusion h
      · rw [h1] at h
        exact Bool.noConfusion h
  · intro h1 h2
    cases h3 : (step p s e).doc.mousemove
    · rfl
    · rcases mono.2.2.2.2.2 h3 with h | h
      · rw [h2] at h
        exact Bool.noConfusion h
      · rw [h1] at h
        exact Bool.noConfusion h

/-- C9 witness: a mouse-family card ignores a stray touch-move — its
touch move listener stays unbound. -/
theorem C9_witness :
    (step demoP (initCard false)
      (Ev.touchmove (some ⟨1, 1⟩))).doc.touchmove = false := by
  have h := C9_input_family demoP (initCard false) (Ev.touchmove (some ⟨1, 1⟩))
  exact h.2.2.2.2.2.2.1 rfl rfl

/-- C10 witness: the amended theorem evaluated at a concrete button state
and the concrete response `{ like_count: 5, error: "bad" }`. -/
theorem C10_witness :
    truthyStr (some "bad") = true ∧
    (likeButtonClick ⟨false, none, 0⟩
        (ToggleOutcome.ok ⟨some 5, some "bad"⟩)).1 =
      { liked := false, display := none, errorLogs := 1 } :=
  ⟨by decide,
   (C10_amended ⟨false, none, 0⟩ ⟨some 5, some "bad"⟩).2.2.2.1 (by decide)⟩

end Swipe
